import Mathlib

/-!
Verification of the ACP agent scraper core (src/scraper.py) against its
natural-language specification.

The Python code is shallowly embedded:

* JSON/dict fields are modelled as `Option` fields of Lean structures
  (`none` = key absent or JSON null).
* Python numbers (floats) are modelled by `ℚ`; Python truthiness of a
  number is `≠ 0`, of a string is `≠ ""`, of an `Option` is `isSome`
  (for dict-valued expressions).
* Python `a or b or ...` chains over optional values are modelled by
  `pyOrQ` / `pyOrS` / `pyOrNat`, which return the first truthy candidate
  and otherwise the falsy default (`0` resp. `""`).
* Python dicts keyed by agent id are modelled as association lists with
  `List.lookup`.
* Python `sorted` is a stable sort; for a total preorder the stably
  sorted permutation of a list is unique, so it is modelled by
  `List.insertionSort` (structurally recursive, hence executable in
  proofs), whose stability (`List.sublist_insertionSort`) and sortedness
  (`List.sorted_insertionSort`) are available in Mathlib.
  `sorted(xs, key=k, reverse=True)` is stable sorting by the relation
  `fun a b => k b ≤ k a`.
* The `while`/`for` loops of the fetcher are modelled by structural
  recursion (retry count) resp. explicit fuel (pagination, which has no
  termination guarantee in the source).
-/

namespace ACP

/-- Python `or`-chain over optional numbers: first truthy (non-zero)
candidate wins, default `0`.  Models `a.get(k) or b.get(k, 0) or 0`. -/
def pyOrQ : List (Option ℚ) → ℚ
  | [] => 0
  | none :: rest => pyOrQ rest
  | some x :: rest => if x = 0 then pyOrQ rest else x

/-- Python `or`-chain over optional strings: first truthy (non-empty)
candidate wins, default `""`. -/
def pyOrS : List (Option String) → String
  | [] => ""
  | none :: rest => pyOrS rest
  | some s :: rest => if s = "" then pyOrS rest else s

/-- Python `or`-chain over optional integer ids, default `0`. -/
def pyOrNat : List (Option Nat) → Nat
  | [] => 0
  | none :: rest => pyOrNat rest
  | some x :: rest => if x = 0 then pyOrNat rest else x

/-- One record of the bulk `/agents` list endpoint (the fields read by
`_merge_agent`; `none` models an absent key). -/
structure ListRec where
  id : Option Nat := none
  name : Option String := none
  category : Option String := none
  role : Option String := none
  cluster : Option String := none
  grossAgenticAmount : Option ℚ := none
  successRate : Option ℚ := none
  transactionCount : Option ℚ := none
  successfulJobCount : Option ℚ := none
  uniqueBuyerCount : Option ℚ := none
  lastActiveAt : Option String := none

/-- One record of the metrics endpoints (leaderboard page entry or
per-agent metrics).  Its `id` key is modelled by the association-list
key where maps are built. -/
structure MetricsRec where
  volume : Option ℚ := none
  grossAgenticAmount : Option ℚ := none
  revenue : Option ℚ := none
  successRate : Option ℚ := none
  successfulJobCount : Option ℚ := none
  uniqueBuyerCount : Option ℚ := none
  lastActiveAt : Option String := none

/-- One record of the per-agent `/agents/{id}/details` endpoint (the
fields read by `_merge_agent`). -/
structure DetailRec where
  id : Option Nat := none
  name : Option String := none
  category : Option String := none
  role : Option String := none
  cluster : Option String := none
  successRate : Option ℚ := none
  transactionCount : Option ℚ := none
  successfulJobCount : Option ℚ := none
  uniqueBuyerCount : Option ℚ := none
  lastActiveAt : Option String := none

/-- The merged agent record (`models.AgentData`), restricted to the
fields the verified claims are about. -/
structure AgentData where
  rank : Nat
  agent_id : Nat
  name : String
  category : String
  volume : ℚ
  gross_agdp : ℚ
  revenue : ℚ
  success_rate : ℚ
  total_jobs : ℚ
  successful_jobs : ℚ
  unique_active_wallets : ℚ
  unique_buyers : ℚ
  online_status : String
  last_active_at : String
  role : String
  cluster : String

/-- Static category translation table `CATEGORY_CN`. -/
def CATEGORY_CN : List (String × String) :=
  [("ON_CHAIN", "链上操作"), ("INFORMATION", "信息分析"),
   ("FUNCTIONAL", "功能型"), ("SOCIAL", "社交"),
   ("CREATIVE", "创意"), ("ENTERTAINMENT", "娱乐"),
   ("DEFI", "去中心化金融"), ("TRADING", "交易"),
   ("GAMING", "游戏"), ("DATA", "数据"),
   ("PRODUCTIVITY", "生产力"), ("UTILITY", "实用工具"),
   ("NONE", "未分类"), ("", "未分类")]

/-- Static role translation table `ROLE_CN`. -/
def ROLE_CN : List (String × String) :=
  [("PROVIDER", "服务提供者"), ("HYBRID", "混合型"),
   ("CONSUMER", "消费者"), ("EVALUATOR", "评估者"),
   ("PRODUCTIVITY", "生产力"), ("", "未指定")]

/-- Static cluster translation table `CLUSTER_CN`. -/
def CLUSTER_CN : List (String × String) :=
  [("hedgefund", "对冲基金"), ("trading", "交易"),
   ("defi", "去中心化金融"), ("social", "社交"),
   ("gaming", "游戏"), ("data", "数据分析"),
   ("mediahouse", "媒体"), ("infrastructure", "基础设施"),
   ("", "")]

/-- Python `table.get(code, code)`: translate a known code, pass an
unknown code through unchanged. -/
def tableGet (t : List (String × String)) (code : String) : String :=
  (t.lookup code).getD code

/-- Python `s.startswith(pre)`, modelled over the character sequence. -/
def pyStartswith (s pre : String) : Bool :=
  pre.data.isPrefixOf s.data

/-- Python `s.strip()`: drop leading and trailing whitespace, modelled
over the character sequence. -/
def pyStrip (s : String) : String :=
  ⟨(((s.data.dropWhile Char.isWhitespace).reverse).dropWhile Char.isWhitespace).reverse⟩

/-- The upstream cap on `grossAgenticAmount` (`AGDP_CAP = 99_999_999.99`
in the source, stated as a reduced fraction so that it is kernel
computable; `AGDP_CAP_eq` checks it against the decimal literal). -/
def AGDP_CAP : ℚ := mkRat 9999999999 100

theorem AGDP_CAP_eq : AGDP_CAP = 99999999.99 := by
  norm_num [AGDP_CAP, mkRat]

/-- `ACPScraper._fix_capped_agdp`: the API caps `grossAgenticAmount` at
99,999,999.99; fall back to the volume figure when the cap is hit and
the volume exceeds it. -/
def _fix_capped_agdp (gross_agdp volume : ℚ) : ℚ :=
  if AGDP_CAP ≤ gross_agdp ∧ AGDP_CAP < volume then volume else gross_agdp

/-- `last_active = m.get("lastActiveAt") or d.get("lastActiveAt") or
l.get("lastActiveAt") or ""` in `_merge_agent`. -/
def resolveLastActive (l : ListRec) (m : MetricsRec) (d : DetailRec) : String :=
  pyOrS [m.lastActiveAt, d.lastActiveAt, l.lastActiveAt]

/-- `raw_category = str(l.get("category") or d.get("category") or "").strip()`. -/
def rawCategory (l : ListRec) (d : DetailRec) : String :=
  pyStrip (pyOrS [l.category, d.category])

/-- `raw_role = str(d.get("role") or l.get("role") or "").strip()`. -/
def rawRole (l : ListRec) (d : DetailRec) : String :=
  pyStrip (pyOrS [d.role, l.role])

/-- `raw_cluster`, including the `"None" -> ""` rewrite. -/
def rawCluster (l : ListRec) (d : DetailRec) : String :=
  let c := pyStrip (pyOrS [d.cluster, l.cluster])
  if c = "None" then "" else c

/-- `ACPScraper._merge_agent`, restricted to the modelled fields.
`metrics_data`/`detail_data` are optional whole records (`d = detail_data
or {}` etc. in the source). -/
def _merge_agent (rank : Nat) (list_data : ListRec) (metrics_data : Option MetricsRec)
    (detail_data : Option DetailRec) : AgentData :=
  let d := detail_data.getD {}
  let m := metrics_data.getD {}
  let l := list_data
  let last_active := resolveLastActive l m d
  { rank := rank
    agent_id := pyOrNat [l.id, d.id]
    name := pyOrS [l.name, d.name]
    category := tableGet CATEGORY_CN (rawCategory l d)
    volume := pyOrQ [m.volume, l.grossAgenticAmount]
    gross_agdp := _fix_capped_agdp
      (pyOrQ [m.grossAgenticAmount, l.grossAgenticAmount])
      (pyOrQ [m.volume, l.grossAgenticAmount])
    revenue := pyOrQ [m.revenue]
    success_rate := min (max (pyOrQ [m.successRate, d.successRate, l.successRate]) 0) 100
    total_jobs := pyOrQ [m.successfulJobCount, d.transactionCount, l.transactionCount]
    successful_jobs := pyOrQ [m.successfulJobCount, d.successfulJobCount, l.successfulJobCount]
    unique_active_wallets := pyOrQ [m.uniqueBuyerCount, d.uniqueBuyerCount, l.uniqueBuyerCount]
    unique_buyers := pyOrQ [m.uniqueBuyerCount, d.uniqueBuyerCount, l.uniqueBuyerCount]
    online_status := if pyStartswith last_active "2999" then "在线" else "离线"
    last_active_at := if pyStartswith last_active "2999" then "始终在线" else last_active
    role := tableGet ROLE_CN (rawRole l d)
    cluster := tableGet CLUSTER_CN (rawCluster l d) }

/-- The ranking key used in `scrape_all`:
`ind_metrics_map.get(x, {}).get("volume", 0) or
 metrics_map.get(x, {}).get("volume", 0) or 0`. -/
def volKey (ind_metrics_map metrics_map : List (Nat × MetricsRec)) (x : Nat) : ℚ :=
  pyOrQ [(ind_metrics_map.lookup x).bind MetricsRec.volume,
         (metrics_map.lookup x).bind MetricsRec.volume]

/-- The sort relation of `sorted(..., key=volume, reverse=True)`:
`a` may precede `b` when `a`'s key is at least `b`'s. -/
def volGE (ind_metrics_map metrics_map : List (Nat × MetricsRec)) (a b : Nat) : Prop :=
  volKey ind_metrics_map metrics_map b ≤ volKey ind_metrics_map metrics_map a

instance (ind metr : List (Nat × MetricsRec)) : DecidableRel (volGE ind metr) :=
  fun a b => inferInstanceAs (Decidable (volKey ind metr a ≥ volKey ind metr b))

instance (ind metr : List (Nat × MetricsRec)) : IsTotal Nat (volGE ind metr) :=
  ⟨fun a b => le_total (volKey ind metr b) (volKey ind metr a)⟩

instance (ind metr : List (Nat × MetricsRec)) : IsTrans Nat (volGE ind metr) :=
  ⟨fun _ _ _ hab hbc => le_trans hbc hab⟩

/-- `all_ids = sorted(set(list(agents_map.keys()) + list(metrics_map.keys())))`
in `scrape_all` (Python's stable sort modelled by `insertionSort`). -/
def all_ids (agents_map : List (Nat × ListRec)) (metrics_map : List (Nat × MetricsRec)) :
    List Nat :=
  ((agents_map.map Prod.fst ++ metrics_map.map Prod.fst).dedup).insertionSort (· ≤ ·)

/-- `sorted_ids = sorted(all_ids, key=volume-lookup, reverse=True)` in
`scrape_all`: a stable descending sort by `volKey`. -/
def sorted_ids (agents_map : List (Nat × ListRec)) (metrics_map ind_metrics_map :
    List (Nat × MetricsRec)) : List Nat :=
  (all_ids agents_map metrics_map).insertionSort (volGE ind_metrics_map metrics_map)

/-- The ranked-merge loop closing `scrape_all` (lines 310-316): enumerate
`sorted_ids` from rank 1 and merge each agent's partial records.
`detail_map`/`ind_metrics_map` hold the per-agent fan-out results. -/
def scrape_ranked (agents_map : List (Nat × ListRec))
    (metrics_map ind_metrics_map : List (Nat × MetricsRec))
    (detail_map : List (Nat × DetailRec)) : List AgentData :=
  (List.enumFrom 1 (sorted_ids agents_map metrics_map ind_metrics_map)).map (fun p =>
    _merge_agent p.1
      ((agents_map.lookup p.2).getD { id := some p.2 })
      (match ind_metrics_map.lookup p.2 with
        | some mm => some mm
        | none => metrics_map.lookup p.2)
      (detail_map.lookup p.2))

/-- The retry loop of `ACPScraper._get`, one failure-or-success outcome
per attempt index (`none` models a non-200 status or a raised/caught
exception).  Returns the result, the number of attempts made, and the
list of back-off sleeps executed.  Recursion is on the number of
remaining loop iterations; the source's `attempt` counter is the second
argument. -/
def _get_loop {α : Type} (outcome : Nat → Option α) : Nat → Nat → Option α × Nat × List Nat
  | attempt, 0 => (none, attempt, [])
  | attempt, remaining + 1 =>
    match outcome attempt with
    | some v => (some v, attempt + 1, [])
    | none =>
      let r := _get_loop outcome (attempt + 1) remaining
      -- `if attempt < self.max_retries - 1: await asyncio.sleep(2 ** attempt)`
      if remaining = 0 then (r.1, r.2.1, r.2.2)
      else (r.1, r.2.1, 2 ^ attempt :: r.2.2)

/-- `ACPScraper._get`: up to `max_retries` attempts starting at attempt
index 0.  Totality of this function models that `_get` never raises to
its caller. -/
def _get {α : Type} (outcome : Nat → Option α) (max_retries : Nat) :
    Option α × Nat × List Nat :=
  _get_loop outcome 0 max_retries

/-- The `while True` pagination loop of `fetch_all_metrics_pages`,
with explicit fuel (the source loop has no termination guarantee; a run
that would loop beyond the fuel is `none`).  `pages p` is the batch the
leaderboard endpoint yields for page `p` (`[]` models an empty or failed
page).  Returns the accumulated records and the last page fetched. -/
def fetch_pages_loop {α : Type} (pages : Nat → List α) (page_size : Nat) :
    Nat → Nat → List α → Option (List α × Nat)
  | 0, _, _ => none
  | fuel + 1, page, acc =>
    let batch := pages page
    if batch.isEmpty then some (acc, page)
    else if batch.length < page_size then some (acc ++ batch, page)
    else fetch_pages_loop pages page_size fuel (page + 1) (acc ++ batch)

/-- `ACPScraper.fetch_all_metrics_pages`: paginate from page 1 with
`page_size = 100`. -/
def fetch_all_metrics_pages {α : Type} (pages : Nat → List α) (fuel : Nat) :
    Option (List α × Nat) :=
  fetch_pages_loop pages 100 fuel 1 []

/-- A parsed configuration mapping (contents irrelevant to the claims). -/
def Config : Type := List (String × String)

/-- What the filesystem/YAML layer can present to `load_config`:
the file is missing (`open` raises `FileNotFoundError`), the file exists
but `yaml.safe_load` raises a parse error, or the file parses to a
document (`none` = a falsy document such as YAML `null`). -/
inductive ConfigSource where
  | missing : ConfigSource
  | malformed : ConfigSource
  | parsed : Option Config → ConfigSource

/-- `load_config`: only `FileNotFoundError` is caught; a YAML parse
error propagates (modelled by `Except.error`). -/
def load_config : ConfigSource → Except String Config
  | ConfigSource.missing => Except.ok []
  | ConfigSource.malformed => Except.error "YAMLError"
  | ConfigSource.parsed doc => Except.ok (doc.getD [])

/-! ## Shared helper lemmas -/

/-- A supplied (`some`) leading candidate is returned by `pyOrQ` when the
remaining candidates are falsy: either it is truthy and wins, or it is
`0` and coincides with the falsy default. -/
theorem pyOrQ_some_none (x : ℚ) : pyOrQ [some x, none] = x := by
  by_cases h : x = 0 <;> simp [pyOrQ, h]

/-- As `pyOrQ_some_none`, for a single-candidate chain. -/
theorem pyOrQ_some (x : ℚ) : pyOrQ [some x] = x := by
  by_cases h : x = 0 <;> simp [pyOrQ, h]

/-! ## Claims -/

/-- C1: for every pair of gross-value and volume inputs `g, v`, if
`g ≥ 99,999,999.99` and `v > 99,999,999.99` then the corrected
gross-value equals `v`; otherwise it equals `g` unchanged. -/
theorem fix_capped_agdp_spec (g v : ℚ) :
    (AGDP_CAP ≤ g → AGDP_CAP < v → _fix_capped_agdp g v = v) ∧
    (¬ (AGDP_CAP ≤ g ∧ AGDP_CAP < v) → _fix_capped_agdp g v = g) := by
  unfold _fix_capped_agdp
  constructor
  · intro h1 h2
    rw [if_pos ⟨h1, h2⟩]
  · intro h
    rw [if_neg h]

/-- Witness for C1 at `g = 100,000,000, v = 100,000,001` (both over the
cap) and at `g = 5, v = 7` (cap not hit). -/
theorem fix_capped_agdp_spec_witness :
    _fix_capped_agdp 100000000 100000001 = 100000001 ∧ _fix_capped_agdp 5 7 = 5 :=
  ⟨(fix_capped_agdp_spec 100000000 100000001).1 (by decide) (by decide),
   (fix_capped_agdp_spec 5 7).2 (by decide)⟩

/-- C2: for every combination of list, metrics and detail inputs
(including negative, missing, or over-100 raw success rates), the merged
`success_rate` lies in `[0, 100]`. -/
theorem merge_success_rate_in_range (rank : Nat) (l : ListRec) (m : Option MetricsRec)
    (d : Option DetailRec) :
    0 ≤ (_merge_agent rank l m d).success_rate ∧
      (_merge_agent rank l m d).success_rate ≤ 100 := by
  have h : (_merge_agent rank l m d).success_rate
      = min (max (pyOrQ [(m.getD {}).successRate, (d.getD {}).successRate, l.successRate]) 0)
          100 := rfl
  rw [h]
  exact ⟨le_min (le_max_right _ _) (by norm_num), min_le_right _ _⟩

/-- C3 counterexample: the metrics record supplies
`grossAgenticAmount = 100,000,000` (a metric field) and the list and
detail records supply nothing, yet the merged `gross_agdp` is
`100,000,001` (the metrics volume, substituted by the cap-correction
rule), not the metrics record's gross-value. -/
theorem merge_metrics_only_field_counterexample :
    (_merge_agent 1 {}
        (some { grossAgenticAmount := some 100000000, volume := some 100000001 })
        none).gross_agdp = 100000001 ∧
    (100000001 : ℚ) ≠ 100000000 := by
  constructor
  · decide
  · decide

/-- C3 (amended): if the metrics record supplies `volume`, `revenue` and
`grossAgenticAmount` while the list record does not supply
`grossAgenticAmount` (the list-side fallback for these fields; the
detail record is never consulted for them), then the merged `volume` and
`revenue` equal the metrics values exactly, and the merged `gross_agdp`
equals the metrics gross-value run through the cap correction
`_fix_capped_agdp` (so it equals the metrics gross-value exactly unless
that value is at or above the cap while the volume exceeds the cap). -/
theorem merge_metrics_only_field_amended (rank : Nat) (l : ListRec) (m : MetricsRec)
    (d : Option DetailRec) (v r g : ℚ)
    (hl : l.grossAgenticAmount = none)
    (hv : m.volume = some v) (hr : m.revenue = some r)
    (hg : m.grossAgenticAmount = some g) :
    (_merge_agent rank l (some m) d).volume = v ∧
    (_merge_agent rank l (some m) d).revenue = r ∧
    (_merge_agent rank l (some m) d).gross_agdp = _fix_capped_agdp g v := by
  refine ⟨?_, ?_, ?_⟩
  · have h : (_merge_agent rank l (some m) d).volume
        = pyOrQ [m.volume, l.grossAgenticAmount] := rfl
    rw [h, hv, hl, pyOrQ_some_none]
  · have h : (_merge_agent rank l (some m) d).revenue = pyOrQ [m.revenue] := rfl
    rw [h, hr, pyOrQ_some]
  · have h : (_merge_agent rank l (some m) d).gross_agdp
        = _fix_capped_agdp (pyOrQ [m.grossAgenticAmount, l.grossAgenticAmount])
            (pyOrQ [m.volume, l.grossAgenticAmount]) := rfl
    rw [h, hg, hv, hl, pyOrQ_some_none, pyOrQ_some_none]

/-- Witness for the amended C3: metrics-only input with `volume = 3`,
`revenue = 4`, `grossAgenticAmount = 5`. -/
theorem merge_metrics_only_field_amended_witness :
    (_merge_agent 1 {}
        (some { volume := some 3, revenue := some 4, grossAgenticAmount := some 5 })
        none).volume = 3 ∧
    (_merge_agent 1 {}
        (some { volume := some 3, revenue := some 4, grossAgenticAmount := some 5 })
        none).revenue = 4 ∧
    (_merge_agent 1 {}
        (some { volume := some 3, revenue := some 4, grossAgenticAmount := some 5 })
        none).gross_agdp = _fix_capped_agdp 5 3 :=
  merge_metrics_only_field_amended 1 {}
    { volume := some 3, revenue := some 4, grossAgenticAmount := some 5 }
    none 3 4 5 rfl rfl rfl rfl

/-- C7: when the resolved last-active timestamp starts with "2999", the
merged record is online (`"在线"`) and its displayed timestamp is the
always-online sentinel (`"始终在线"`); for any other resolved timestamp
(including the missing-value default `""`), the record is offline
(`"离线"`) and the timestamp is passed through as-is. -/
theorem merge_online_sentinel (rank : Nat) (l : ListRec) (m : Option MetricsRec)
    (d : Option DetailRec) :
    (pyStartswith (resolveLastActive l (m.getD {}) (d.getD {})) "2999" = true →
      (_merge_agent rank l m d).online_status = "在线" ∧
      (_merge_agent rank l m d).last_active_at = "始终在线") ∧
    (pyStartswith (resolveLastActive l (m.getD {}) (d.getD {})) "2999" = false →
      (_merge_agent rank l m d).online_status = "离线" ∧
      (_merge_agent rank l m d).last_active_at
        = resolveLastActive l (m.getD {}) (d.getD {})) := by
  constructor <;> intro h <;>
    exact ⟨by simp [_merge_agent, h], by simp [_merge_agent, h]⟩

/-- Witness for C7: a "2999-12-31..." timestamp from the metrics record,
and a "2024-05-01" timestamp from the list record. -/
theorem merge_online_sentinel_witness :
    ((_merge_agent 2 {} (some { lastActiveAt := some "2999-12-31T00:00:00.000Z" })
        none).online_status = "在线" ∧
     (_merge_agent 2 {} (some { lastActiveAt := some "2999-12-31T00:00:00.000Z" })
        none).last_active_at = "始终在线") ∧
    ((_merge_agent 3 { lastActiveAt := some "2024-05-01" } none none).online_status = "离线" ∧
     (_merge_agent 3 { lastActiveAt := some "2024-05-01" } none none).last_active_at
        = resolveLastActive { lastActiveAt := some "2024-05-01" } {} {}) :=
  ⟨(merge_online_sentinel 2 {} (some { lastActiveAt := some "2999-12-31T00:00:00.000Z" })
      none).1 (by decide),
   (merge_online_sentinel 3 { lastActiveAt := some "2024-05-01" } none none).2 (by decide)⟩

/-- C8: each of the category, role and cluster codes resolved from the
input records is translated through its static table when the code is a
key there, and passes through unchanged when it is not. -/
theorem merge_code_translation (rank : Nat) (l : ListRec) (m : Option MetricsRec)
    (d : Option DetailRec) :
    (∀ lab, CATEGORY_CN.lookup (rawCategory l (d.getD {})) = some lab →
        (_merge_agent rank l m d).category = lab) ∧
    (CATEGORY_CN.lookup (rawCategory l (d.getD {})) = none →
        (_merge_agent rank l m d).category = rawCategory l (d.getD {})) ∧
    (∀ lab, ROLE_CN.lookup (rawRole l (d.getD {})) = some lab →
        (_merge_agent rank l m d).role = lab) ∧
    (ROLE_CN.lookup (rawRole l (d.getD {})) = none →
        (_merge_agent rank l m d).role = rawRole l (d.getD {})) ∧
    (∀ lab, CLUSTER_CN.lookup (rawCluster l (d.getD {})) = some lab →
        (_merge_agent rank l m d).cluster = lab) ∧
    (CLUSTER_CN.lookup (rawCluster l (d.getD {})) = none →
        (_merge_agent rank l m d).cluster = rawCluster l (d.getD {})) := by
  refine ⟨fun lab h => ?_, fun h => ?_, fun lab h => ?_, fun h => ?_, fun lab h => ?_,
    fun h => ?_⟩ <;>
    simp [_merge_agent, tableGet, h]

/-- Witness for C8: an unknown category code "UNKNOWN_X" passes through,
the known role code "PROVIDER" and cluster code "trading" translate. -/
theorem merge_code_translation_witness :
    (_merge_agent 1
        { category := some "UNKNOWN_X", role := some "PROVIDER", cluster := some "trading" }
        none none).category
      = rawCategory
          { category := some "UNKNOWN_X", role := some "PROVIDER", cluster := some "trading" }
          {} ∧
    (_merge_agent 1
        { category := some "UNKNOWN_X", role := some "PROVIDER", cluster := some "trading" }
        none none).role = "服务提供者" ∧
    (_merge_agent 1
        { category := some "UNKNOWN_X", role := some "PROVIDER", cluster := some "trading" }
        none none).cluster = "交易" :=
  ⟨(merge_code_translation 1
      { category := some "UNKNOWN_X", role := some "PROVIDER", cluster := some "trading" }
      none none).2.1 (by decide),
   (merge_code_translation 1
      { category := some "UNKNOWN_X", role := some "PROVIDER", cluster := some "trading" }
      none none).2.2.1 "服务提供者" (by decide),
   (merge_code_translation 1
      { category := some "UNKNOWN_X", role := some "PROVIDER", cluster := some "trading" }
      none none).2.2.2.2.1 "交易" (by decide)⟩


/-- Run of the retry loop when every attempt fails, from an arbitrary
starting attempt index. -/
theorem get_loop_all_fail {α : Type} (outcome : Nat → Option α)
    (h : ∀ i, outcome i = none) (remaining : Nat) :
    ∀ attempt, _get_loop outcome attempt remaining
      = (none, attempt + remaining, (List.range' attempt (remaining - 1)).map (2 ^ ·)) := by
  induction remaining with
  | zero =>
    intro attempt
    simp [_get_loop]
  | succ n ih =>
    intro attempt
    simp only [_get_loop, h attempt]
    rw [ih (attempt + 1)]
    cases n with
    | zero => simp
    | succ k =>
      rw [if_neg (Nat.succ_ne_zero k)]
      have he : attempt + 1 + (k + 1) = attempt + (k + 1 + 1) := by omega
      rw [he, Nat.succ_sub_one, Nat.succ_sub_one, List.range'_succ, List.map_cons]

/-- C5: a fetch whose every attempt fails (non-200 or exception) returns
`none` after exactly `max_retries` attempts, sleeping `2 ^ attempt`
seconds after each attempt except the last (so `1, 2, ...` for attempt
indices `0, 1, ...`); the operation is total, i.e. never raises. -/
theorem get_all_attempts_fail {α : Type} (outcome : Nat → Option α) (max_retries : Nat)
    (h : ∀ i, outcome i = none) :
    _get outcome max_retries
      = (none, max_retries, (List.range (max_retries - 1)).map (2 ^ ·)) := by
  rw [_get, get_loop_all_fail outcome h max_retries 0, List.range_eq_range']
  simp

/-- Witness for C5: `max_retries = 3`, all attempts fail: `none` after 3
attempts with back-off sleeps of 1s then 2s. -/
theorem get_all_attempts_fail_witness :
    _get (fun _ => (none : Option Nat)) 3 = (none, 3, [1, 2]) :=
  (get_all_attempts_fail (fun _ => none) 3 (fun _ => rfl)).trans (by decide)

/-- Run of the pagination loop when pages `page, ..., page + steps - 1`
are full (`≥ page_size = 100` records) and page `page + steps` is short:
the loop stops at page `page + steps` having accumulated every record of
the pages it fetched. -/
theorem fetch_pages_loop_run {α : Type} (pages : Nat → List α) (steps : Nat) :
    ∀ (fuel page : Nat) (acc : List α),
      (∀ q, page ≤ q → q < page + steps → 100 ≤ (pages q).length) →
      (pages (page + steps)).length < 100 →
      steps < fuel →
      fetch_pages_loop pages 100 fuel page acc
        = some (acc ++ ((List.range' page (steps + 1)).map pages).flatten, page + steps) := by
  induction steps with
  | zero =>
    intro fuel page acc _ hshort hfuel
    match fuel, hfuel with
    | f + 1, _ =>
      have hshort' : (pages page).length < 100 := by simpa using hshort
      cases hb : (pages page).isEmpty with
      | true =>
        have hnil : pages page = [] := List.isEmpty_iff.mp (by simp [hb])
        simp [fetch_pages_loop, hb, hnil]
      | false =>
        simp [fetch_pages_loop, hb, hshort']
  | succ s ih =>
    intro fuel page acc hfull hshort hfuel
    match fuel, hfuel with
    | f + 1, hf =>
      have hlen : 100 ≤ (pages page).length := hfull page (le_refl page) (by omega)
      have hne : (pages page).isEmpty = false := by
        rw [List.isEmpty_eq_false]
        intro hnil
        rw [hnil] at hlen
        simp at hlen
      have hrec := ih f (page + 1) (acc ++ pages page)
        (fun q hq1 hq2 => hfull q (by omega) (by omega))
        (by
          have he : page + 1 + s = page + (s + 1) := by omega
          rw [he]
          exact hshort)
        (by omega)
      simp only [fetch_pages_loop, hne, Bool.false_eq_true, if_false,
        if_neg (Nat.not_lt.mpr hlen)]
      rw [hrec]
      have he : page + 1 + s = page + (s + 1) := by omega
      rw [he]
      conv_rhs => rw [List.range'_succ]
      simp [List.append_assoc]

/-- C6: the pagination walker stops at the first page with fewer than
`page_size = 100` records (an empty or failed page returns `[]` and so
also stops it), having fetched pages `1..k` and accumulated exactly
their records, for any fuel bound of at least `k` iterations. -/
theorem fetch_all_metrics_pages_terminates {α : Type} (pages : Nat → List α) (k fuel : Nat)
    (hk : 1 ≤ k) (hfull : ∀ q, 1 ≤ q → q < k → 100 ≤ (pages q).length)
    (hshort : (pages k).length < 100) (hfuel : k ≤ fuel) :
    fetch_all_metrics_pages pages fuel
      = some (((List.range' 1 k).map pages).flatten, k) := by
  obtain ⟨j, rfl⟩ : ∃ j, k = j + 1 := ⟨k - 1, by omega⟩
  have h := fetch_pages_loop_run pages j fuel 1 []
    (fun q hq1 hq2 => hfull q hq1 (by omega))
    (by
      have he : 1 + j = j + 1 := by omega
      rw [he]
      exact hshort)
    (by omega)
  rw [fetch_all_metrics_pages, h]
  have he : 1 + j = j + 1 := by omega
  simp [he]

/-- Witness for C6: a source with exactly 100 records on page 1 and an
empty page 2 yields exactly one page's worth of records after fetching
two pages, and the walk terminates. -/
theorem fetch_all_metrics_pages_terminates_witness :
    fetch_all_metrics_pages (fun q => if q = 1 then List.range 100 else ([] : List Nat)) 2
      = some (List.range 100, 2) :=
  (fetch_all_metrics_pages_terminates (fun q => if q = 1 then List.range 100 else []) 2 2
    (by decide)
    (fun q h1 h2 => by
      have hq : q = 1 := by omega
      subst hq
      simp)
    (by decide)
    (le_refl 2)).trans (by decide)


/-- C4 counterexample: agent 1 appears only in the bulk list with
`grossAgenticAmount = 500` (so its ranking key is 0 but its merged
volume is 500), agent 2 appears only in the leaderboard with
`volume = 100`.  The output ranks agent 2 first, yet the earlier-ranked
record's merged volume (100) is smaller than the later-ranked one's
(500). -/
theorem scrape_ranked_merged_volume_counterexample :
    (scrape_ranked [(1, { id := some 1, grossAgenticAmount := some 500 })]
        [(2, { volume := some 100 })] [] []).map AgentData.rank = [1, 2] ∧
    (scrape_ranked [(1, { id := some 1, grossAgenticAmount := some 500 })]
        [(2, { volume := some 100 })] [] []).map AgentData.volume = [100, 500] ∧
    ¬ ((500 : ℚ) ≤ 100) :=
  ⟨by decide, by decide, by decide⟩

/-- C4 (amended): the output ranks are the 1-based dense sequence
`1, 2, ..., n` in output order, and the output order is by descending
ranking-key volume, where the ranking key of an agent id is its
individual-metrics volume, else its leaderboard volume, else 0
(`volKey`) — which can differ from the merged record's `volume` field
when the latter falls back to the list record's `grossAgenticAmount`. -/
theorem scrape_ranked_dense_and_key_sorted (agents : List (Nat × ListRec))
    (metr ind : List (Nat × MetricsRec)) (details : List (Nat × DetailRec)) :
    (scrape_ranked agents metr ind details).map AgentData.rank
      = List.range' 1 (sorted_ids agents metr ind).length ∧
    (sorted_ids agents metr ind).Sorted (volGE ind metr) := by
  constructor
  · rw [scrape_ranked, List.map_map]
    have h : (AgentData.rank ∘ fun p : Nat × Nat =>
        _merge_agent p.1 ((agents.lookup p.2).getD { id := some p.2 })
          (match ind.lookup p.2 with
            | some mm => some mm
            | none => metr.lookup p.2)
          (details.lookup p.2)) = Prod.fst := funext fun p => rfl
    rw [h, List.enumFrom_map_fst]
  · unfold sorted_ids
    exact List.sorted_insertionSort (volGE ind metr) (all_ids agents metr)

/-- A pair of members of a strictly increasing list, in order, forms a
sublist. -/
theorem pair_sublist_of_pairwise_lt : ∀ {l : List Nat} {i j : Nat},
    l.Pairwise (· < ·) → i ∈ l → j ∈ l → i < j → List.Sublist [i, j] l
  | [], _, _, _, hi, _, _ => absurd hi (List.not_mem_nil _)
  | a :: t, i, j, h, hi, hj, hij => by
    rw [List.pairwise_cons] at h
    rcases List.mem_cons.mp hi with rfl | hit
    · rcases List.mem_cons.mp hj with rfl | hjt
      · exact absurd hij (lt_irrefl _)
      · exact List.Sublist.cons₂ _ (List.singleton_sublist.mpr hjt)
    · rcases List.mem_cons.mp hj with rfl | hjt
      · exact absurd hij (Nat.lt_asymm (h.1 i hit))
      · exact List.Sublist.cons _ (pair_sublist_of_pairwise_lt h.2 hit hjt hij)

/-- `all_ids` (sorted de-duplicated union of the id sets) is strictly
increasing. -/
theorem all_ids_pairwise_lt (agents : List (Nat × ListRec))
    (metr : List (Nat × MetricsRec)) : (all_ids agents metr).Pairwise (· < ·) := by
  unfold all_ids
  have hs := List.sorted_insertionSort (α := Nat) (· ≤ ·)
    ((agents.map Prod.fst ++ metr.map Prod.fst).dedup)
  have hn : (((agents.map Prod.fst ++ metr.map Prod.fst).dedup).insertionSort
      (· ≤ ·)).Nodup :=
    ((List.perm_insertionSort (· ≤ ·) _).nodup_iff).mpr (List.nodup_dedup _)
  exact hs.lt_of_le hn

/-- C10: when two agent ids have equal ranking-key volume, the candidate
id list being sorted ascending and the rank sort being stable put them
into the output in ascending-id order. -/
theorem scrape_equal_volume_tie_ascending (agents : List (Nat × ListRec))
    (metr ind : List (Nat × MetricsRec)) (i j : Nat)
    (hi : i ∈ all_ids agents metr) (hj : j ∈ all_ids agents metr)
    (hij : i < j) (hkey : volKey ind metr i = volKey ind metr j) :
    List.Sublist [i, j] (sorted_ids agents metr ind) := by
  have hsub : List.Sublist [i, j] (all_ids agents metr) :=
    pair_sublist_of_pairwise_lt (all_ids_pairwise_lt agents metr) hi hj hij
  have hge : volGE ind metr i j := le_of_eq hkey.symm
  unfold sorted_ids
  exact List.pair_sublist_insertionSort hge hsub

/-- Witness for C10: two agents known only from the bulk list, both with
ranking key 0; id 1 precedes id 2 in the ranked output. -/
theorem scrape_equal_volume_tie_ascending_witness :
    List.Sublist [1, 2] (sorted_ids [(1, { id := some 1 }), (2, { id := some 2 })] [] []) :=
  scrape_equal_volume_tie_ascending [(1, { id := some 1 }), (2, { id := some 2 })] [] [] 1 2
    (by decide) (by decide) (by decide) (by decide)

/-- C9 counterexample: a malformed (unparseable) configuration file
makes `load_config` propagate the YAML parse error instead of returning
the empty configuration — only `FileNotFoundError` is caught. -/
theorem load_config_malformed_counterexample :
    load_config ConfigSource.malformed = Except.error "YAMLError" ∧
    load_config ConfigSource.malformed ≠ Except.ok ([] : Config) :=
  ⟨rfl, by simp [load_config]⟩

/-- C9 (amended): a missing configuration file, and a configuration file
that parses to a falsy document, both yield the empty configuration; a
parsed document is returned as the configuration; but a malformed
configuration file raises the YAML parse error to the caller. -/
theorem load_config_amended :
    load_config ConfigSource.missing = Except.ok ([] : Config) ∧
    load_config (ConfigSource.parsed none) = Except.ok ([] : Config) ∧
    (∀ doc : Config, load_config (ConfigSource.parsed (some doc)) = Except.ok doc) ∧
    load_config ConfigSource.malformed = Except.error "YAMLError" :=
  ⟨rfl, rfl, fun _ => rfl, rfl⟩

end ACP
